import Mathlib

/-
Verification development for the internal vcgt parser of xcalib
(src/xcalib.c, function read_vcgt_from_profile and its helpers).

The C file is modelled shallowly:
- the FILE pointer together with the 4-byte scratch buffer cTmp is the
  record FileSt; fread(cTmp, 1, n, fp) is the function fread below, which
  returns the number of bytes actually read and the updated state (a short
  read near end of file copies only the available bytes and leaves the
  remaining buffer bytes unchanged, exactly as the C library does);
- cTmp is uninitialized in C; it is modelled as starting out all zero,
  and no theorem below depends on a read of a byte that was never written;
- the big-endian reconstructions cTmp[3]+cTmp[2]*256+cTmp[1]*65536+
  cTmp[0]*16777216 and cTmp[1]+cTmp[0]*256 are be32 and be16;
- error() prints to stderr and calls exit(-1); a call of error() is the
  outcome VcgtOutcome.exited, since the function never returns from it;
- return -1 and return 0 are the outcomes retNeg1 and ret0; ret0 carries
  the ramps written through the output pointers, or none when the function
  returns 0 without having written them.
-/

def SYSTEM_GAMMA_NUM : Nat := 2222222

def SYSTEM_GAMMA_DEN : Nat := 1000000

/-- The multi-character constant of the C source, built big-endian from the
ASCII bytes of the four letters v, c, g, t. -/
def vcgtSig : Nat := 0x76636774

structure FileSt where
  data : List Nat
  pos : Nat
  buf : List Nat
  deriving DecidableEq

/-- Model of fread(cTmp, 1, n, fp): read up to n bytes from the current
position, returning the count read and the new state.  Bytes beyond the
count read keep their previous buffer contents. -/
def fread (n : Nat) (s : FileSt) : Nat × FileSt :=
  let k := min n (s.data.length - s.pos)
  let chunk := (s.data.drop s.pos).take k
  (k, ⟨s.data, s.pos + k, chunk ++ s.buf.drop k⟩)

/-- Model of fseek(fp, off, SEEK_SET); seeking past end of file succeeds. -/
def fseekTo (off : Nat) (s : FileSt) : FileSt :=
  ⟨s.data, off, s.buf⟩

def initFile (data : List Nat) : FileSt :=
  ⟨data, 0, [0, 0, 0, 0]⟩

/-- cTmp[3] + cTmp[2]*256 + cTmp[1]*65536 + cTmp[0]*16777216. -/
def be32 (l : List Nat) : Nat :=
  l.getD 3 0 + l.getD 2 0 * 256 + l.getD 1 0 * 65536 + l.getD 0 0 * 16777216

/-- cTmp[1] + cTmp[0]*256. -/
def be16 (l : List Nat) : Nat :=
  l.getD 1 0 + l.getD 0 0 * 256

/-- The sample index used by the resampling code at lines 286-313 of
src/xcalib.c.  targetHere is *nEntries (the X gamma ramp size), numEntries
the vcgt table size.  Down-sampling indexes redRamp[ratio*j] with
ratio = numEntries / target, up-sampling indexes redRamp[j/ratio] with
ratio = target / numEntries.  The C source applies no clamping. -/
def tableRampIndex (numEntries target j : Nat) : Nat :=
  if target = numEntries then j
  else if target < numEntries then numEntries / target * j
  else j / (target / numEntries)

/-- The resampling of one decoded channel (lines 286-313 of src/xcalib.c).
When target = numEntries the pointer is handed over unchanged.  Otherwise a
fresh array of length target is filled through tableRampIndex.  An index
past the end of samples is a read of unallocated memory in C; it is
modelled by the getD default 0 (claim C1 records this out-of-bounds
access). -/
def resample (samples : List Nat) (numEntries target : Nat) : List Nat :=
  if target = numEntries then samples
  else (List.range target).map fun j => samples.getD (tableRampIndex numEntries target j) 0

/-- Outcome of read_vcgt_from_profile.  retNeg1 models return -1 (NULL
filename or fopen failure).  exited models a call of error(), which prints
and calls exit(-1), so the function never returns.  ret0 models return 0;
it carries the ramps written through the output pointers rRamp, gRamp,
bRamp, or none when the function returns 0 without writing them. -/
inductive VcgtOutcome where
  | retNeg1
  | exited
  | ret0 (ramps : Option (List Nat × List Nat × List Nat))
  deriving DecidableEq

/-- One sample of the table reading loops (lines 253-283 of src/xcalib.c).
The switch on entrySize has no break between case 1 and case 2, so for
entrySize = 1 the code reads one byte, stores it, then falls through into
case 2, reads two further bytes and overwrites the stored value with their
big-endian combination.  For entrySize = 2 it reads exactly two bytes.  For
any other entrySize no case matches: nothing is read and the array entry
keeps its malloc garbage, modelled by 0. -/
def readSample (entrySize : Nat) (s : FileSt) : Nat × FileSt :=
  match entrySize with
  | 1 =>
    let r1 := fread 1 s
    let r2 := fread 2 r1.2
    (be16 r2.2.buf, r2.2)
  | 2 =>
    let r := fread 2 s
    (be16 r.2.buf, r.2)
  | _ => (0, s)

/-- One channel loop: for(j = 0; j < numEntries; j++) readSample. -/
def readChannel (entrySize : Nat) (count : Nat) (s : FileSt) : List Nat × FileSt :=
  match count with
  | 0 => ([], s)
  | c + 1 =>
    let r := readSample entrySize s
    let rest := readChannel entrySize c r.2
    (r.1 :: rest.1, rest.2)

/-- The VideoCardGammaTable branch (lines 239-314 of src/xcalib.c): read
numChannels, numEntries, entrySize as 2-byte big-endian fields; if
numChannels differs from 3 jump to cleanup_fileparser and return 0 with the
output pointers untouched; otherwise read the three channels in
channel-major order and resample each to the requested size. -/
def decodeTable (nEntries : Nat) (s : FileSt) : VcgtOutcome :=
  let r1 := fread 2 s
  let numChannels := be16 r1.2.buf
  let r2 := fread 2 r1.2
  let numEntries := be16 r2.2.buf
  let r3 := fread 2 r2.2
  let entrySize := be16 r3.2.buf
  if numChannels ≠ 3 then VcgtOutcome.ret0 none
  else
    let red := readChannel entrySize numEntries r3.2
    let green := readChannel entrySize numEntries red.2
    let blue := readChannel entrySize numEntries green.2
    VcgtOutcome.ret0 (some
      (resample red.1 numEntries nEntries,
       resample green.1 numEntries nEntries,
       resample blue.1 numEntries nEntries))

/-- k consecutive fread(cTmp, 1, 4, fp) calls, keeping only the state. -/
def freadWords (k : Nat) (s : FileSt) : FileSt :=
  match k with
  | 0 => s
  | n + 1 => freadWords n (fread 4 s).2

/-- The VideoCardGammaFormula branch (lines 184-237 of src/xcalib.c): nine
4-byte reads for rGamma, rMin, rMax, gGamma, gMin, gMax, bGamma, bMin,
bMax, then three ramps of length nEntries are written through the output
pointers.  The entry values are IEEE double computations with pow and a
scale constant of 65563 (claim C5 concerns them and is settled separately);
this model records only that the pointers are populated with ramps of the
requested length, so the entries are left as 0 here. -/
def decodeFormula (nEntries : Nat) (s : FileSt) : VcgtOutcome :=
  let _s9 := freadWords 9 s
  VcgtOutcome.ret0 (some
    (List.replicate nEntries 0, List.replicate nEntries 0, List.replicate nEntries 0))

/-- Decoding of a located vcgt tag (lines 171-314 of src/xcalib.c): seek to
tagOffset, re-read the 4-byte signature, and on mismatch call error(),
which exits the process.  Otherwise skip the reserved word, read gammaType,
and dispatch: 1 is the formula branch, 0 the table branch, anything else
falls through both ifs to cleanup_fileparser and returns 0. -/
def decodeTag (tagOffset nEntries : Nat) (s : FileSt) : VcgtOutcome :=
  let s1 := fseekTo tagOffset s
  let r1 := fread 4 s1
  let tagName := be32 r1.2.buf
  if tagName ≠ vcgtSig then VcgtOutcome.exited
  else
    let r2 := fread 4 r1.2
    let r3 := fread 4 r2.2
    let gammaType := be32 r3.2.buf
    if gammaType = 1 then decodeFormula nEntries r3.2
    else if gammaType = 0 then decodeTable nEntries r3.2
    else VcgtOutcome.ret0 none

/-- The tag directory loop (lines 160-317 of src/xcalib.c): each iteration
reads three 4-byte words tagName, tagOffset, tagSize; if the last fread
returned zero bytes, jump to cleanup_fileparser; if tagName matches the
vcgt signature, return the located entry and the current state (decoding
then proceeds at tagOffset); otherwise continue with the next entry. -/
def scanTags (fuel : Nat) (s : FileSt) : Option (Nat × Nat × FileSt) :=
  match fuel with
  | 0 => none
  | k + 1 =>
    let r1 := fread 4 s
    let tagName := be32 r1.2.buf
    let r2 := fread 4 r1.2
    let tagOffset := be32 r2.2.buf
    let r3 := fread 4 r2.2
    let tagSize := be32 r3.2.buf
    if r3.1 = 0 then none
    else if tagName = vcgtSig then some (tagOffset, tagSize, r3.2)
    else scanTags k r3.2

/-- What happens after the directory loop: when no vcgt entry was found (or
a read came up empty) control reaches cleanup_fileparser and the function
returns 0 with the output pointers untouched; when an entry was found the
tag body at its offset is decoded (the directory tagSize value is read but
never used afterwards, exactly as in the C source). -/
def afterScan (nEntries : Nat) (r : Option (Nat × Nat × FileSt)) : VcgtOutcome :=
  match r with
  | none => VcgtOutcome.ret0 none
  | some (tagOffset, _, s) => decodeTag tagOffset nEntries s

/-- Model of read_vcgt_from_profile (lines 121-322 of src/xcalib.c).  The
file argument is none when filename is NULL or fopen fails (both return
-1).  Otherwise: skip the 128-byte header, read the 4-byte tag count, scan
the directory, and decode the first vcgt entry found; every path that
reaches cleanup_fileparser returns 0.  The nEntries parameter is the value
behind the in-out pointer, the gamma ramp size of the X server. -/
def read_vcgt_from_profile (file : Option (List Nat)) (nEntries : Nat) : VcgtOutcome :=
  match file with
  | none => VcgtOutcome.retNeg1
  | some data =>
    let s0 := fseekTo 128 (initFile data)
    let r := fread 4 s0
    let numTags := be32 r.2.buf
    afterScan nEntries (scanTags numTags r.2)

/-- A profile whose directory has one vcgt entry pointing at offset 144,
where the payload signature is the four bytes of x x x x instead of
v c g t. -/
def badSigProfile : List Nat :=
  List.replicate 128 0 ++ [0, 0, 0, 1] ++
  ([0x76, 0x63, 0x67, 0x74] ++ [0, 0, 0, 144] ++ [0, 0, 0, 16]) ++
  [0x78, 0x78, 0x78, 0x78]

/-- A profile with a well-formed vcgt tag of Table type whose channelCount
field is 2 instead of 3. -/
def channel2Profile : List Nat :=
  List.replicate 128 0 ++ [0, 0, 0, 1] ++
  ([0x76, 0x63, 0x67, 0x74] ++ [0, 0, 0, 144] ++ [0, 0, 0, 20]) ++
  ([0x76, 0x63, 0x67, 0x74] ++ [0, 0, 0, 0] ++ [0, 0, 0, 0] ++ [0, 2, 0, 4, 0, 1])

/-- A profile whose only directory entry is a vcgt entry with tagOffset 500,
far beyond the end of the 144-byte file: the signature re-read at offset
500 reads zero bytes, the stale buffer content does not match vcgt, and
error() exits the process. -/
def overEofProfile : List Nat :=
  List.replicate 128 0 ++ [0, 0, 0, 1] ++
  ([0x76, 0x63, 0x67, 0x74] ++ [0, 0, 1, 244] ++ [0, 0, 0, 16])

/-- A syntactically valid profile whose tag directory is empty. -/
def emptyDirProfile : List Nat :=
  List.replicate 128 0 ++ [0, 0, 0, 0]

/-- Big-endian 4-byte encoding of an unsigned 32-bit value. -/
def be32bytes (x : Nat) : List Nat :=
  [x / 16777216 % 256, x / 65536 % 256, x / 256 % 256, x % 256]

/-- The 12 bytes of one tag directory entry: signature, offset, size. -/
def entryBytes (e : Nat × Nat × Nat) : List Nat :=
  be32bytes e.1 ++ (be32bytes e.2.1 ++ be32bytes e.2.2)

def entriesBytes : List (Nat × Nat × Nat) → List Nat
  | [] => []
  | e :: tl => entryBytes e ++ entriesBytes tl

/-- The offset and size of the first directory entry whose signature is the
vcgt signature, if any. -/
def findVcgt : List (Nat × Nat × Nat) → Option (Nat × Nat)
  | [] => none
  | e :: tl => if e.1 = vcgtSig then some (e.2.1, e.2.2) else findVcgt tl

/-- A profile image: a 128-byte header, the 4-byte big-endian tag count,
the directory entries, then arbitrary further bytes. -/
def profileBytes (es : List (Nat × Nat × Nat)) (rest : List Nat) : List Nat :=
  List.replicate 128 0 ++ (be32bytes es.length ++ (entriesBytes es ++ rest))

/-- Every directory entry field fits in 32 bits. -/
def entriesOk (es : List (Nat × Nat × Nat)) : Prop :=
  ∀ e ∈ es, e.1 < 4294967296 ∧ e.2.1 < 4294967296 ∧ e.2.2 < 4294967296

/-- A tag count of 5 is declared but the file ends right after the count
field. -/
def truncatedProfile : List Nat :=
  List.replicate 128 0 ++ [0, 0, 0, 5]

/-- One directory entry whose signature is the four bytes of d e s c, so no
vcgt entry exists. -/
def noVcgtProfile : List Nat :=
  List.replicate 128 0 ++ [0, 0, 0, 1] ++
  ([0x64, 0x65, 0x73, 0x63] ++ [0, 0, 0, 200] ++ [0, 0, 0, 4])

lemma getD_map_range (t j : Nat) (f : Nat → Nat) (hj : j < t) :
    ((List.range t).map f).getD j 0 = f j := by
  simp [List.getD, List.getElem?_map, List.getElem?_range, hj]

lemma downIndex_lt (e t j : Nat) (ht : 0 < t) (he : t < e) (hj : j < t) :
    e / t * j < e := by
  have h1 : e / t * j ≤ e / t * (t - 1) :=
    Nat.mul_le_mul_left _ (by omega)
  have hsucc : e / t * (t - 1) + e / t = e / t * t := by
    have h : t - 1 + 1 = t := Nat.succ_pred_eq_of_pos ht
    calc e / t * (t - 1) + e / t = e / t * ((t - 1) + 1) := (Nat.mul_succ _ _).symm
      _ = e / t * t := by rw [h]
  have h3 : e / t * t ≤ e := Nat.div_mul_le_self e t
  have h4 : 0 < e / t := Nat.div_pos (le_of_lt he) ht
  have h5 : e / t * (t - 1) < e := by
    have := Nat.lt_add_of_pos_right (k := e / t) (n := e / t * (t - 1)) h4
    omega
  omega

/-- Claim C9: when the vcgt table size equals the requested ramp size the
code hands the decoded sample array over unchanged (lines 286-290), so the
evaluation is the identity on the decoded samples. -/
theorem c9_identity_when_sizes_match (samples : List Nat) (n : Nat) :
    resample samples n n = samples := by
  simp [resample]

/-- Claim C7: down-sampling (lines 291-301) uses ratio = numEntries / target
(floor division) and copies ramp[j] = samples[ratio * j]; the index
ratio * j always stays below numEntries, and in particular a 1024-entry
table resampled to 256 entries gives ramp[10] = samples[40]. -/
theorem c7_downsample_decimation :
    (∀ (samples : List Nat) (e t : Nat), samples.length = e → 0 < t → t < e →
      ∀ j, j < t →
        (resample samples e t).getD j 0 = samples.getD (e / t * j) 0 ∧
        e / t * j < samples.length) ∧
    (∀ samples : List Nat, samples.length = 1024 →
      (resample samples 1024 256).getD 10 0 = samples.getD 40 0) := by
  constructor
  · intro samples e t hs ht he j hj
    have hne : ¬ t = e := Nat.ne_of_lt he
    constructor
    · rw [resample, if_neg hne, getD_map_range t j _ hj,
        tableRampIndex, if_neg hne, if_pos he]
    · rw [hs]
      exact downIndex_lt e t j ht he hj
  · intro samples hs
    have : (resample samples 1024 256).getD 10 0 = samples.getD (1024 / 256 * 10) 0 := by
      rw [resample, if_neg (by omega), getD_map_range 256 10 _ (by omega),
        tableRampIndex, if_neg (by omega), if_pos (by omega)]
    simpa using this

theorem c7_downsample_decimation_witness :
    0 < 4 ∧ 4 < 8 ∧
      ((resample [5, 6, 7, 8, 9, 10, 11, 12] 8 4).getD 3 0 =
        [5, 6, 7, 8, 9, 10, 11, 12].getD (8 / 4 * 3) 0 ∧
       8 / 4 * 3 < ([5, 6, 7, 8, 9, 10, 11, 12] : List Nat).length) :=
  ⟨by decide, by decide,
    c7_downsample_decimation.1 [5, 6, 7, 8, 9, 10, 11, 12] 8 4 rfl
      (by decide) (by decide) 3 (by decide)⟩

/-- Claim C8: up-sampling (lines 303-313) uses ratio = target / numEntries
(floor division) and copies ramp[j] = samples[j / ratio]; in particular a
256-entry table resampled to 1024 entries gives ramp[400] = samples[100]. -/
theorem c8_upsample_replication :
    (∀ (samples : List Nat) (e t : Nat), 0 < e → e < t →
      ∀ j, j < t →
        (resample samples e t).getD j 0 = samples.getD (j / (t / e)) 0) ∧
    (∀ samples : List Nat, samples.length = 256 →
      (resample samples 256 1024).getD 400 0 = samples.getD 100 0) := by
  constructor
  · intro samples e t he het j hj
    have hne : ¬ t = e := by omega
    rw [resample, if_neg hne, getD_map_range t j _ hj,
      tableRampIndex, if_neg hne, if_neg (by omega)]
  · intro samples hs
    have h : (resample samples 256 1024).getD 400 0 = samples.getD (400 / (1024 / 256)) 0 := by
      rw [resample, if_neg (by omega), getD_map_range 1024 400 _ (by omega),
        tableRampIndex, if_neg (by omega), if_neg (by omega)]
    simpa using h

theorem c8_upsample_replication_witness :
    0 < 2 ∧ 2 < 6 ∧
      (resample [40, 50] 2 6).getD 5 0 = [40, 50].getD (5 / (6 / 2)) 0 :=
  ⟨by decide, by decide,
    c8_upsample_replication.1 [40, 50] 2 6 (by decide) (by decide) 5 (by decide)⟩

/-- Claim C1 fails on the code: the up-sampling loop applies no clamp, so
for a table with numEntries = 100 resampled to target = 256 the index used
at j = 255 is 255 / (256 / 100) = 127, which is at or past the end of the
100-entry sample array; the C code reads unallocated memory there (the
model returns the getD default, visible as 0 below although every sample
equals 7). -/
theorem c1_upsample_index_out_of_bounds :
    tableRampIndex 100 256 255 = 127 ∧
    100 ≤ tableRampIndex 100 256 255 ∧
    (resample (List.replicate 100 7) 100 256).getD 255 0 = 0 := by
  refine ⟨by decide, by decide, ?_⟩
  decide

/-- Claim C4 fails on the code: the switch over entrySize at lines 253-283
has no break between case 1 and case 2.  With entrySize = 1 each sample
reads one byte, stores it, then falls through and reads two further bytes
whose big-endian combination overwrites the stored value, so each sample
consumes 3 bytes instead of 1 and the resulting value is neither the 1-byte
sample nor a scaled version of it.  On the byte stream 1 2 3 4 5 6 the two
decoded samples are 2*256+3 = 515 and 5*256+6 = 1286 and the position
advances by 6, not by 2.  With entrySize = 2 the path is correct: two bytes
per sample, big-endian. -/
theorem c4_fallthrough_double_read :
    (readChannel 1 2 ⟨[1, 2, 3, 4, 5, 6], 0, [0, 0, 0, 0]⟩).1 = [515, 1286] ∧
    (readChannel 1 2 ⟨[1, 2, 3, 4, 5, 6], 0, [0, 0, 0, 0]⟩).2.pos = 6 ∧
    (readChannel 2 2 ⟨[1, 2, 3, 4], 0, [0, 0, 0, 0]⟩).1 = [258, 772] ∧
    (readChannel 2 2 ⟨[1, 2, 3, 4], 0, [0, 0, 0, 0]⟩).2.pos = 4 := by
  refine ⟨?_, ?_, ?_, ?_⟩ <;> decide

set_option maxRecDepth 100000 in
set_option maxHeartbeats 1000000 in
/-- Counterexample to claim C2: on this concrete profile the re-read
signature at tagOffset differs from vcgt, and the decoder does not warn and
continue; it calls error(), which prints to stderr and exits the process
with status -1 (modelled by VcgtOutcome.exited).  No best-effort output is
produced. -/
theorem c2_sig_mismatch_exits_process :
    read_vcgt_from_profile (some badSigProfile) 256 = VcgtOutcome.exited := by
  decide

/-- Claim C2 amended: whenever the 4-byte signature re-read at tagOffset
differs from vcgt, decoding aborts through error(), which terminates the
process with exit status -1; the function does not return and no ramp is
produced. -/
theorem c2_sig_mismatch_behavior (tagOffset n : Nat) (s : FileSt)
    (h : be32 (fread 4 (fseekTo tagOffset s)).2.buf ≠ vcgtSig) :
    decodeTag tagOffset n s = VcgtOutcome.exited := by
  simp only [decodeTag]
  rw [if_pos h]

set_option maxRecDepth 100000 in
set_option maxHeartbeats 1000000 in
theorem c2_sig_mismatch_behavior_witness :
    be32 (fread 4 (fseekTo 0 (initFile (List.replicate 160 0)))).2.buf ≠ vcgtSig ∧
    decodeTag 0 7 (initFile (List.replicate 160 0)) = VcgtOutcome.exited :=
  ⟨by decide, c2_sig_mismatch_behavior 0 7 (initFile (List.replicate 160 0)) (by decide)⟩

set_option maxRecDepth 100000 in
set_option maxHeartbeats 1000000 in
/-- Counterexample to claim C3: a Table tag with channelCount = 2 does not
fail with an UnsupportedFormat error; the parser jumps silently to
cleanup_fileparser and returns 0 - the same value as on success - with no
diagnostic emitted and the output ramp pointers untouched. -/
theorem c3_channel_count_silent_return :
    read_vcgt_from_profile (some channel2Profile) 256 = VcgtOutcome.ret0 none := by
  decide

/-- Claim C3 amended: for every Table-variant vcgt tag whose channelCount
field is not 3, decoding is aborted silently: the function returns 0
without emitting any error and the output ramp pointers are not populated
(so no decoded ramp reaches the consumer). -/
theorem c3_channel_mismatch_no_ramp (n : Nat) (s : FileSt)
    (h : be16 (fread 2 s).2.buf ≠ 3) :
    decodeTable n s = VcgtOutcome.ret0 none := by
  simp only [decodeTable]
  rw [if_pos h]

set_option maxRecDepth 100000 in
set_option maxHeartbeats 1000000 in
theorem c3_channel_mismatch_no_ramp_witness :
    be16 (fread 2 (initFile [0, 5, 0, 2, 0, 1])).2.buf ≠ 3 ∧
    decodeTable 16 (initFile [0, 5, 0, 2, 0, 1]) = VcgtOutcome.ret0 none :=
  ⟨by decide, c3_channel_mismatch_no_ramp 16 (initFile [0, 5, 0, 2, 0, 1]) (by decide)⟩

lemma decodeFormula_ne_retNeg1 (n : Nat) (s : FileSt) :
    decodeFormula n s ≠ VcgtOutcome.retNeg1 := by
  simp [decodeFormula]

lemma decodeTable_ne_retNeg1 (n : Nat) (s : FileSt) :
    decodeTable n s ≠ VcgtOutcome.retNeg1 := by
  simp only [decodeTable]
  split <;> simp

lemma decodeTag_ne_retNeg1 (off n : Nat) (s : FileSt) :
    decodeTag off n s ≠ VcgtOutcome.retNeg1 := by
  simp only [decodeTag]
  split
  · simp
  · split
    · exact decodeFormula_ne_retNeg1 _ _
    · split
      · exact decodeTable_ne_retNeg1 _ _
      · simp

lemma afterScan_ne_retNeg1 (n : Nat) (r : Option (Nat × Nat × FileSt)) :
    afterScan n r ≠ VcgtOutcome.retNeg1 := by
  match r with
  | none => simp [afterScan]
  | some (o, sz, st) =>
    simpa [afterScan] using decodeTag_ne_retNeg1 o n st

lemma read_vcgt_some_eq (data : List Nat) (n : Nat) :
    read_vcgt_from_profile (some data) n =
      afterScan n (scanTags (be32 (fread 4 (fseekTo 128 (initFile data))).2.buf)
        (fread 4 (fseekTo 128 (initFile data))).2) := rfl

lemma read_vcgt_some_ne_retNeg1 (data : List Nat) (n : Nat) :
    read_vcgt_from_profile (some data) n ≠ VcgtOutcome.retNeg1 := by
  rw [read_vcgt_some_eq]
  exact afterScan_ne_retNeg1 _ _

set_option maxRecDepth 100000 in
set_option maxHeartbeats 1000000 in
/-- Counterexample to claim C10: with a readable file (so not the -1 case)
the signature-mismatch path does not return 0; error() terminates the
process, so the function does not return at all. -/
theorem c10_error_path_does_not_return :
    read_vcgt_from_profile (some overEofProfile) 64 = VcgtOutcome.exited := by
  decide

set_option maxRecDepth 100000 in
set_option maxHeartbeats 1000000 in
/-- Claim C10 amended: the function returns -1 exactly when the filename is
NULL or the file cannot be opened; whenever it returns in any other case
the value is 0 - including an absent vcgt entry, a short read, and a
channelCount other than 3 - but on a vcgt signature mismatch error() exits
the process and the function does not return.  A return value of 0 does not
guarantee that the output ramp pointers were written, as the empty
directory shows. -/
theorem c10_return_values :
    (∀ (file : Option (List Nat)) (n : Nat),
      read_vcgt_from_profile file n = VcgtOutcome.retNeg1 ↔ file = none) ∧
    read_vcgt_from_profile (some emptyDirProfile) 8 = VcgtOutcome.ret0 none := by
  constructor
  · intro file n
    cases file with
    | none => simp [read_vcgt_from_profile]
    | some data =>
      constructor
      · intro h
        exact absurd h (read_vcgt_some_ne_retNeg1 data n)
      · intro h
        simp at h
  · decide

set_option maxRecDepth 100000 in
set_option maxHeartbeats 1000000 in
theorem c10_return_values_witness :
    read_vcgt_from_profile none 3 = VcgtOutcome.retNeg1 ∧
    read_vcgt_from_profile (some emptyDirProfile) 8 = VcgtOutcome.ret0 none :=
  ⟨(c10_return_values.1 none 3).mpr rfl, c10_return_values.2⟩

lemma length_be32bytes (x : Nat) : (be32bytes x).length = 4 := rfl

lemma be32_be32bytes (x : Nat) (hx : x < 4294967296) : be32 (be32bytes x) = x := by
  simp only [be32, be32bytes, List.getD_cons_succ, List.getD_cons_zero]
  omega

lemma drop_shift4 (l w B : List Nat) (p : Nat) (hw : w.length = 4)
    (h : l.drop p = w ++ B) : l.drop (p + 4) = B := by
  rw [← List.drop_drop, h, ← hw, List.drop_left]

lemma fread4_mk (data : List Nat) (p : Nat) (b w tail2 : List Nat)
    (hw : w.length = 4) (hb : b.length = 4) (h : data.drop p = w ++ tail2) :
    fread 4 ⟨data, p, b⟩ = (4, ⟨data, p + 4, w⟩) := by
  have hc := congrArg List.length h
  simp only [List.length_drop, List.length_append, hw] at hc
  have hk : min 4 (data.length - p) = 4 := by omega
  have htake : (data.drop p).take 4 = w := by
    rw [h, ← hw, List.take_left]
  have hdropb : b.drop 4 = [] := List.drop_eq_nil_of_le (by omega)
  simp only [fread]
  rw [hk, htake, hdropb, List.append_nil]

lemma scanTags_succ (k : Nat) (s : FileSt) :
    scanTags (k + 1) s =
      if (fread 4 (fread 4 (fread 4 s).2).2).1 = 0 then none
      else if be32 (fread 4 s).2.buf = vcgtSig then
        some (be32 (fread 4 (fread 4 s).2).2.buf,
          be32 (fread 4 (fread 4 (fread 4 s).2).2).2.buf,
          (fread 4 (fread 4 (fread 4 s).2).2).2)
      else scanTags k (fread 4 (fread 4 (fread 4 s).2).2).2 := rfl

lemma scanTags_spec (es : List (Nat × Nat × Nat)) :
    ∀ (d : List Nat) (p : Nat) (b : List Nat) (rest : List Nat),
      b.length = 4 →
      d.drop p = entriesBytes es ++ rest →
      entriesOk es →
      (findVcgt es = none → scanTags es.length ⟨d, p, b⟩ = none) ∧
      (∀ off sz, findVcgt es = some (off, sz) →
        ∃ q w, scanTags es.length ⟨d, p, b⟩ = some (off, sz, ⟨d, q, w⟩)) := by
  induction es with
  | nil =>
    intro d p b rest hb h hok
    exact ⟨fun _ => rfl, fun off sz hfind => by simp [findVcgt] at hfind⟩
  | cons e tl ih =>
    intro d p b rest hb h hok
    obtain ⟨sig, off0, sz0⟩ := e
    have hbound := hok ⟨sig, off0, sz0⟩ (List.mem_cons_self _ _)
    have hok2 : entriesOk tl := fun x hx => hok x (List.mem_cons_of_mem _ hx)
    have h1 : d.drop p =
        be32bytes sig ++ (be32bytes off0 ++ (be32bytes sz0 ++ (entriesBytes tl ++ rest))) := by
      simpa only [entriesBytes, entryBytes, List.append_assoc] using h
    have h2 : d.drop (p + 4) = be32bytes off0 ++ (be32bytes sz0 ++ (entriesBytes tl ++ rest)) :=
      drop_shift4 _ _ _ _ (length_be32bytes sig) h1
    have h3 : d.drop (p + 4 + 4) = be32bytes sz0 ++ (entriesBytes tl ++ rest) :=
      drop_shift4 _ _ _ _ (length_be32bytes off0) h2
    have h4 : d.drop (p + 4 + 4 + 4) = entriesBytes tl ++ rest :=
      drop_shift4 _ _ _ _ (length_be32bytes sz0) h3
    have e1 : fread 4 (⟨d, p, b⟩ : FileSt) = (4, ⟨d, p + 4, be32bytes sig⟩) :=
      fread4_mk d p b _ _ (length_be32bytes sig) hb h1
    have e2 : fread 4 (⟨d, p + 4, be32bytes sig⟩ : FileSt) =
        (4, ⟨d, p + 4 + 4, be32bytes off0⟩) :=
      fread4_mk d (p + 4) _ _ _ (length_be32bytes off0) (length_be32bytes sig) h2
    have e3 : fread 4 (⟨d, p + 4 + 4, be32bytes off0⟩ : FileSt) =
        (4, ⟨d, p + 4 + 4 + 4, be32bytes sz0⟩) :=
      fread4_mk d (p + 4 + 4) _ _ _ (length_be32bytes sz0) (length_be32bytes off0) h3
    have hstep : scanTags ((⟨sig, off0, sz0⟩ :: tl) : List (Nat × Nat × Nat)).length ⟨d, p, b⟩ =
        if sig = vcgtSig then
          some (off0, sz0, ⟨d, p + 4 + 4 + 4, be32bytes sz0⟩)
        else scanTags tl.length ⟨d, p + 4 + 4 + 4, be32bytes sz0⟩ := by
      rw [List.length_cons, scanTags_succ]
      simp only [e1, e2, e3]
      rw [if_neg (by decide : ¬ (4 = 0)), be32_be32bytes sig hbound.1,
        be32_be32bytes off0 hbound.2.1, be32_be32bytes sz0 hbound.2.2]
    by_cases hsig : sig = vcgtSig
    · refine ⟨fun hfind => ?_, fun off sz hfind => ?_⟩
      · simp [findVcgt, hsig] at hfind
      · simp only [findVcgt, hsig, if_pos] at hfind
        obtain ⟨rfl, rfl⟩ : off0 = off ∧ sz0 = sz := by
          simpa using hfind
        exact ⟨p + 4 + 4 + 4, be32bytes sz0, by rw [hstep, if_pos hsig]⟩
    · obtain ⟨ihn, ihs⟩ := ih d (p + 4 + 4 + 4) (be32bytes sz0) rest
        (length_be32bytes sz0) h4 hok2
      refine ⟨fun hfind => ?_, fun off sz hfind => ?_⟩
      · rw [hstep, if_neg hsig]
        exact ihn (by simpa [findVcgt, hsig] using hfind)
      · obtain ⟨q, w, hq⟩ := ihs off sz (by simpa [findVcgt, hsig] using hfind)
        exact ⟨q, w, by rw [hstep, if_neg hsig, hq]⟩

set_option maxRecDepth 100000 in
set_option maxHeartbeats 1000000 in
/-- Counterexample to claim C6: neither failure mode of the directory scan
is reported as an error.  On a profile whose declared tag count (5) exceeds
the actual byte length the freads come up empty and the function returns 0
(the same value as on success) with no ramp and no IoError; on a profile
with no vcgt entry it likewise returns 0 with no ramp and no
TagNotFound-style failure.  The return value therefore does not distinguish
a located tag from either failure. -/
theorem c6_truncated_and_missing_tag_return_zero :
    read_vcgt_from_profile (some truncatedProfile) 256 = VcgtOutcome.ret0 none ∧
    read_vcgt_from_profile (some noVcgtProfile) 256 = VcgtOutcome.ret0 none := by
  constructor <;> decide

/-- Claim C6 amended: the directory scan walks the declared number of
12-byte entries after the 128-byte header and 4-byte count; it stops at the
first entry whose signature equals vcgt and hands that entry's offset to
the tag decoder, and when no entry matches (or a read comes up empty,
reads being truncated at end of buffer rather than out of bounds) the
function returns 0 with no ramp and no error indication of any kind. -/
theorem c6_locate_first_vcgt (es : List (Nat × Nat × Nat)) (rest : List Nat) (n : Nat)
    (hok : entriesOk es) (hlen : es.length < 4294967296) :
    (findVcgt es = none →
      read_vcgt_from_profile (some (profileBytes es rest)) n = VcgtOutcome.ret0 none) ∧
    (∀ off sz, findVcgt es = some (off, sz) →
      ∃ q w, read_vcgt_from_profile (some (profileBytes es rest)) n =
        decodeTag off n ⟨profileBytes es rest, q, w⟩) := by
  have hdrop : (profileBytes es rest).drop 128 =
      be32bytes es.length ++ (entriesBytes es ++ rest) := by
    have h0 := List.drop_left (List.replicate 128 (0 : Nat))
      (be32bytes es.length ++ (entriesBytes es ++ rest))
    rw [List.length_replicate] at h0
    exact h0
  have efirst : fread 4 (fseekTo 128 (initFile (profileBytes es rest))) =
      (4, ⟨profileBytes es rest, 128 + 4, be32bytes es.length⟩) :=
    fread4_mk _ 128 _ _ _ (length_be32bytes _) rfl hdrop
  have hdropE : (profileBytes es rest).drop (128 + 4) = entriesBytes es ++ rest :=
    drop_shift4 _ _ _ _ (length_be32bytes _) hdrop
  obtain ⟨hn, hs⟩ := scanTags_spec es (profileBytes es rest) (128 + 4)
    (be32bytes es.length) rest (length_be32bytes _) hdropE hok
  have hread : read_vcgt_from_profile (some (profileBytes es rest)) n =
      afterScan n (scanTags es.length
        ⟨profileBytes es rest, 128 + 4, be32bytes es.length⟩) := by
    rw [read_vcgt_some_eq]
    simp only [efirst]
    rw [be32_be32bytes _ hlen]
  refine ⟨fun hfind => ?_, fun off sz hfind => ?_⟩
  · rw [hread, hn hfind]
    rfl
  · obtain ⟨q, w, hq⟩ := hs off sz hfind
    exact ⟨q, w, by rw [hread, hq]; rfl⟩

set_option maxRecDepth 100000 in
set_option maxHeartbeats 1000000 in
theorem c6_locate_first_vcgt_witness :
    entriesOk [(vcgtSig, 144, 12)] ∧
    ∃ q w, read_vcgt_from_profile (some (profileBytes [(vcgtSig, 144, 12)] [])) 16 =
      decodeTag 144 16 ⟨profileBytes [(vcgtSig, 144, 12)] [], q, w⟩ := by
  have hok : entriesOk [(vcgtSig, 144, 12)] := by
    intro e he
    simp only [List.mem_singleton] at he
    subst he
    exact ⟨by decide, by decide, by decide⟩
  refine ⟨hok, ?_⟩
  exact (c6_locate_first_vcgt [(vcgtSig, 144, 12)] [] 16 hok (by decide)).2
    144 12 (by decide)
